import Mathlib

/-!
Verification development for the auto-signin repository.

The repository drives scheduled "check-in" automation over a set of target
platforms.  This file gives a shallow embedding of the parts the claims are
about:

* `SessionManager` (src/utils/session.js): the session-file store.  The
  session directory is modelled as a list of files carrying a name, a
  modification time in milliseconds, and the aspects of their JSON content
  that the code inspects (whether `JSON.parse` succeeds, and the shape of
  the `cookies` field).
* `AutoSignIn` (src/index.js): `signInPlatform`, `runAll` (serial and
  parallel orchestration) and `runSingle`.  The per-platform browser run is
  abstracted as a function from the platform name to its observable
  behaviour (the promise resolves with a boolean, or rejects).
* `CronScheduler` (src/scheduler/cron.js): `start` / `getStatus`, with the
  external `node-cron` validator as a parameter, plus a validator modelled
  from the spec for concrete instances.
* `BaseSignIn.run`: src/base/BaseSignIn.js is referenced by both platform
  classes but is absent from the repository, so the run state machine is
  modelled from the spec (section 4.2).

JavaScript floating-point ages such as
`(Date.now() - stats.mtime.getTime()) / 86400000 > 7` are embedded as exact
integer comparisons `now - mtime > 7 * 86400000`; for integer millisecond
timestamps in the representable range the float comparison agrees with the
exact rational one, because the quotient differs from 7 by far more than one
ulp whenever the numerators differ.
-/

namespace AutoSigninProof

/-- List-level check that `pat` is an initial segment of `s`
(used to build the suffix test `String.prototype.endsWith`). -/
def leadsWith : List Char → List Char → Bool
  | [], _ => true
  | _ :: _, [] => false
  | a :: as, b :: bs => a == b && leadsWith as bs

/-- Check that `pat` is a trailing segment of `s`: JavaScript
`s.endsWith(pat)` on the underlying character lists. -/
def trailsWith (pat s : List Char) : Bool :=
  leadsWith pat.reverse s.reverse

/-- Remove the first occurrence of `pat` from `s`: JavaScript
`s.replace(pat, '')` with a plain-string pattern replaces only the first
occurrence. -/
def removeFirstOcc (pat : List Char) : List Char → List Char
  | [] => []
  | c :: rest =>
    if leadsWith pat (c :: rest) then (c :: rest).drop pat.length
    else c :: removeFirstOcc pat rest

/-- JavaScript `s.replace(pat, '')` (first occurrence only). -/
def jsReplaceFirst (s pat : String) : String :=
  ⟨removeFirstOcc pat.toList s.toList⟩

/-- Shape of the `cookies` field of a parsed session file, as far as
`data.cookies && Array.isArray(data.cookies)` can observe it:
`absent` covers a missing or otherwise falsy field, `notArray` a truthy
non-array value, `array n` an array of `n` cookies (arrays are truthy in
JavaScript, including the empty array). -/
inductive CookiesField where
  | absent
  | notArray
  | array (n : Nat)
deriving DecidableEq

/-- Content of a session file as inspected by `SessionManager`:
either `JSON.parse` throws (`malformed`) or it yields a value whose
`cookies` field has the given shape. -/
inductive FileContent where
  | malformed
  | parsed (cookies : CookiesField)
deriving DecidableEq

/-- One file in the sessions directory: name, filesystem modification time
in milliseconds since the epoch (`stats.mtime.getTime()`), and content. -/
structure SessFile where
  name : String
  mtimeMs : Int
  content : FileContent
deriving DecidableEq

/-- The sessions directory (`this.sessionDir`), as the list of files it
contains in directory order (`fs.readdirSync`). -/
structure SessionDir where
  files : List SessFile
deriving DecidableEq

/-- Milliseconds per day: the `1000 * 60 * 60 * 24` divisor. -/
def dayMs : Int := 86400000

/-- The session TTL in days: the literal `7` in the age comparisons. -/
def ttlDays : Int := 7

/-- The `_state.json` suffix used by `getSessionPath` and the directory
scans. -/
def stateSuffix : String := "_state.json"

/-- SessionManager.getSessionPath: the session file for a platform, keyed
by file name within the sessions directory. -/
def sessionFileName (p : String) : String := p ++ stateSuffix

/-- JavaScript `file.endsWith('_state.json')`. -/
def isStateFile (n : String) : Bool := trailsWith stateSuffix.toList n.toList

/-- Look up a file by name (`fs.existsSync` + `fs.readFileSync` /
`fs.statSync` on the same path). -/
def findFile (d : SessionDir) (n : String) : Option SessFile :=
  d.files.find? (fun f => f.name == n)

/-- SessionManager.clearSession: delete the platform's session file if it
exists (`fs.unlinkSync`); idempotent. -/
def clearSession (d : SessionDir) (p : String) : SessionDir :=
  ⟨d.files.filter (fun f => !(f.name == sessionFileName p))⟩

/-- The boolean value of `data.cookies && Array.isArray(data.cookies)`.
When the field is falsy the JavaScript expression evaluates to that falsy
value itself, which every caller treats as `false`. -/
def cookiesIsArray : CookiesField → Bool
  | CookiesField.array _ => true
  | _ => false

/-- SessionManager.hasValidSession (src/utils/session.js lines 59-92).
Returns the validity verdict together with the directory state after the
call, since the check purges the file on parse failure and on expiry:
missing file → false; `JSON.parse` throws → `clearSession` and false;
age above the TTL → `clearSession` and false; otherwise the verdict is
`data.cookies && Array.isArray(data.cookies)`. -/
def hasValidSession (now : Int) (d : SessionDir) (p : String) :
    Bool × SessionDir :=
  match findFile d (sessionFileName p) with
  | none => (false, d)
  | some f =>
    match f.content with
    | FileContent.malformed => (false, clearSession d p)
    | FileContent.parsed cookies =>
      if ttlDays * dayMs < now - f.mtimeMs then
        (false, clearSession d p)
      else
        (cookiesIsArray cookies, d)

/-- SessionManager.getStorageStatePath (lines 99-104): the session file
path when `hasValidSession` holds, `null` otherwise; threads the directory
state through the validity check's purges. -/
def getStorageStatePath (now : Int) (d : SessionDir) (p : String) :
    Option String × SessionDir :=
  let r := hasValidSession now d p
  if r.1 then (some (sessionFileName p), r.2) else (none, r.2)

/-- Expiry test of the housekeeping loop: the file name ends with
`_state.json` and its modification age exceeds 7 days. -/
def expiredState (now : Int) (f : SessFile) : Bool :=
  isStateFile f.name && decide (ttlDays * dayMs < now - f.mtimeMs)

/-- Body of the `for (const file of files)` loop of
`cleanupExpiredSessions`: traverses the directory listing, unlinking every
expired `_state.json` file and counting the deletions (`cleanedCount`). -/
def cleanupLoop (now : Int) : List SessFile → List SessFile × Nat
  | [] => ([], 0)
  | f :: rest =>
    let r := cleanupLoop now rest
    if expiredState now f then (r.1, r.2 + 1) else (f :: r.1, r.2)

/-- SessionManager.cleanupExpiredSessions (lines 125-150): deletes every
expired `_state.json` file and logs the count when positive.  The method
body has no `return` statement, so its JavaScript value is `undefined`,
embedded as `none` in the second component. -/
def cleanupExpiredSessions (now : Int) (d : SessionDir) :
    SessionDir × Option Nat :=
  (⟨(cleanupLoop now d.files).1⟩, none)

/-- The internal `cleanedCount` accumulated by the housekeeping loop
(logged, not returned). -/
def cleanedCountOf (now : Int) (files : List SessFile) : Nat :=
  (cleanupLoop now files).2

/-- JavaScript `Math.round((now - mtime) / 86400000)`: round half toward
positive infinity, i.e. the floor of the quantity plus one half. -/
def jsRoundDays (ageMs : Int) : Int :=
  Int.fdiv (2 * ageMs + dayMs) (2 * dayMs)

/-- One entry of the operator inventory returned by `getAllSessions`. -/
structure SessionInfo where
  platform : String
  isValid : Bool
  lastModifiedMs : Int
  daysOld : Int
deriving DecidableEq

/-- SessionManager.getAllSessions (lines 156-188): lists every
`_state.json` file with a validity flag computed from the modification age
alone (`daysSinceModified <= 7`); the file content is never read. -/
def getAllSessions (now : Int) (d : SessionDir) : List SessionInfo :=
  (d.files.filter (fun f => isStateFile f.name)).map (fun f =>
    { platform := jsReplaceFirst f.name stateSuffix
      isValid := decide (now - f.mtimeMs ≤ ttlDays * dayMs)
      lastModifiedMs := f.mtimeMs
      daysOld := jsRoundDays (now - f.mtimeMs) })

/-- One enabled entry of `config.getPlatforms()` (config/platforms.json):
`name` selects the implementation class and `displayName` is reporting
text.  The orchestration claims only touch these two fields. -/
structure PlatformConfig where
  name : String
  displayName : String
deriving DecidableEq

/-- Observable behaviour of `new PlatformClass().run()` for one platform:
the awaited promise resolves with the success boolean, or rejects with an
error message. -/
inductive RunBehavior where
  | resolves (success : Bool)
  | throws (msg : String)
deriving DecidableEq

/-- The keys of `PLATFORM_CLASSES` (src/index.js lines 11-14). -/
def knownPlatform (n : String) : Bool := n == "juejin" || n == "bilibili"

/-- One per-target result object built by `signInPlatform`
(the `timestamp` field, `new Date().toISOString()`, carries no claim
content and is omitted). -/
structure RunResult where
  platform : String
  displayName : String
  success : Bool
  message : String
  error : Option String
deriving DecidableEq

/-- AutoSignIn.signInPlatform (src/index.js lines 30-72): looks the
platform up in `PLATFORM_CLASSES` (a miss throws, caught by the same
function) and runs the instance; any rejection is caught and mapped to a
failed result carrying the error message. -/
def signInPlatform (driver : String → RunBehavior) (cfg : PlatformConfig) :
    RunResult :=
  if !(knownPlatform cfg.name) then
    { platform := cfg.name, displayName := cfg.displayName, success := false,
      message := "签到出错: 未找到平台 " ++ cfg.name ++ " 的实现类",
      error := some ("未找到平台 " ++ cfg.name ++ " 的实现类") }
  else
    match driver cfg.name with
    | RunBehavior.resolves b =>
      { platform := cfg.name, displayName := cfg.displayName, success := b,
        message := if b then "签到成功" else "签到失败", error := none }
    | RunBehavior.throws m =>
      { platform := cfg.name, displayName := cfg.displayName, success := false,
        message := "签到出错: " ++ m, error := some m }

/-- Externally visible step of the serial loop: one platform run, or the
inter-target wait (`setTimeout(resolve, 3000)`). -/
inductive Event where
  | runTarget (name : String)
  | delay (ms : Nat)
deriving DecidableEq

/-- Serial branch of AutoSignIn.runAll (src/index.js lines 95-108): run
the platforms one at a time in configured order, pushing each result, and
wait 3000 ms between consecutive platforms.  The source guards the wait
with `this.platforms.indexOf(platform) < this.platforms.length - 1`;
`indexOf` compares object references and each config object occurs exactly
once in the array, so the guard holds exactly on every iteration but the
last. -/
def runAllSerialLoop (driver : String → RunBehavior) :
    List PlatformConfig → List RunResult × List Event
  | [] => ([], [])
  | [p] => ([signInPlatform driver p], [Event.runTarget p.name])
  | p :: q :: rest =>
    let r := runAllSerialLoop driver (q :: rest)
    (signInPlatform driver p :: r.1,
     Event.runTarget p.name :: Event.delay 3000 :: r.2)

/-- `Promise.all` over the positionally created promise array: `completion`
is the temporal order in which the runs settle; each settling writes its
value into the slot of the promise that produced it, and `Promise.all`
resolves with the slot array read positionally. -/
def promiseAllSlots (outcomes : List RunResult) (completion : List Nat) :
    List (Option RunResult) :=
  completion.foldl (fun slots i => slots.set i outcomes[i]?)
    (List.replicate outcomes.length none)

/-- Parallel branch of AutoSignIn.runAll (src/index.js lines 88-94):
`this.results = await Promise.all(this.platforms.map(signInPlatform))`,
parameterised by the completion order of the concurrent runs. -/
def runAllParallel (driver : String → RunBehavior)
    (platforms : List PlatformConfig) (completion : List Nat) :
    List (Option RunResult) :=
  promiseAllSlots (platforms.map (signInPlatform driver)) completion

/-- Observable outcome of AutoSignIn.runSingle: the value of
`this.results` after the call, and whether `printResults` ran. -/
structure RunSingleOutcome where
  results : List RunResult
  reported : Bool
deriving DecidableEq

/-- AutoSignIn.runSingle (src/index.js lines 175-189): look the name up
among the enabled platform configs; on a miss, log the
not-found-or-disabled failure and return — `this.results` is left as it
was and nothing is reported; on a hit, run the platform and report the
single-element result list. -/
def runSingle (driver : String → RunBehavior)
    (platforms : List PlatformConfig) (prevResults : List RunResult)
    (name : String) : RunSingleOutcome :=
  match platforms.find? (fun p => p.name == name) with
  | none => ⟨prevResults, false⟩
  | some cfg => ⟨[signInPlatform driver cfg], true⟩

/-- Mutable state of a CronScheduler instance: the keys of `this.tasks`
(a `Map`, in insertion order; the task objects themselves carry no claim
content) and `this.isRunning`. -/
structure SchedulerState where
  taskKeys : List String
  isRunning : Bool
deriving DecidableEq

/-- Value of CronScheduler.getStatus (src/scheduler/cron.js lines
119-125). -/
structure SchedulerStatus where
  isRunning : Bool
  taskCount : Nat
  tasks : List String
deriving DecidableEq

/-- Key effect of `Map.prototype.set`: an existing key keeps its insertion
position, a new key is appended. -/
def mapSetKey (keys : List String) (k : String) : List String :=
  if keys.contains k then keys else keys ++ [k]

/-- CronScheduler.start (src/scheduler/cron.js lines 26-94), with the
external `node-cron` validator as the `validate` parameter.  Returns the
new state and the message of the early-return branch taken (`none` when a
schedule is registered; the informational success logging carries no claim
content). -/
def CronScheduler.start (validate : String → Bool) (s : SchedulerState)
    (expr : String) : SchedulerState × Option String :=
  if s.isRunning then (s, some "定时任务已在运行中")
  else if !(validate expr) then (s, some ("无效的cron表达式: " ++ expr))
  else ({ taskKeys := mapSetKey s.taskKeys "main", isRunning := true }, none)

/-- CronScheduler.getStatus (lines 119-125). -/
def CronScheduler.getStatus (s : SchedulerState) : SchedulerStatus :=
  ⟨s.isRunning, s.taskKeys.length, s.taskKeys⟩

/-- Split a character list on a separator character (the behaviour of
`String.prototype.split` with a one-character separator). -/
def splitChars (sep : Char) : List Char → List (List Char)
  | [] => [[]]
  | c :: rest =>
    match splitChars sep rest with
    | [] => [[]]
    | g :: gs => if c == sep then [] :: g :: gs else (c :: g) :: gs

/-- Numeric value of a decimal digit character, if it is one. -/
def digitVal (c : Char) : Option Nat :=
  if c.isDigit then some (c.toNat - 48) else none

/-- Parse a nonempty all-digit character list as a natural number. -/
def natOfDigits (cs : List Char) : Option Nat :=
  match cs with
  | [] => none
  | _ =>
    cs.foldl
      (fun acc c =>
        match acc, digitVal c with
        | some a, some v => some (10 * a + v)
        | _, _ => none)
      (some 0)

/-- Accept a number within the field's range. -/
def numOk (lo hi : Nat) (cs : List Char) : Bool :=
  match natOfDigits cs with
  | some n => decide (lo ≤ n) && decide (n ≤ hi)
  | none => false

/-- Accept a range `a-b` of in-range numbers. -/
def rangeOk (lo hi : Nat) (cs : List Char) : Bool :=
  match splitChars '-' cs with
  | [a, b] => numOk lo hi a && numOk lo hi b
  | _ => false

/-- Accept a list `a,b,c` of in-range numbers. -/
def listOk (lo hi : Nat) (cs : List Char) : Bool :=
  match splitChars ',' cs with
  | a :: b :: rest => (a :: b :: rest).all (numOk lo hi)
  | _ => false

/-- Accept a step `*/n` with positive `n`. -/
def stepOk (cs : List Char) : Bool :=
  match splitChars '/' cs with
  | [st, n] =>
    st == ['*'] &&
      (match natOfDigits n with
       | some m => decide (0 < m)
       | none => false)
  | _ => false

/-- Accept one cron field: `*`, an in-range number, a range, a list, or a
step. -/
def cronFieldOk (lo hi : Nat) (cs : List Char) : Bool :=
  cs == ['*'] || numOk lo hi cs || rangeOk lo hi cs || listOk lo hi cs ||
    stepOk cs

/-- Modelled from the spec: `cron.validate` of the external `node-cron`
dependency, which is not part of the repository.  Per spec section 4.4, a
valid expression has five fields (minute 0-59, hour 0-23, day-of-month
1-31, month 1-12, day-of-week 0-6), each field being `*`, an in-range
number, a range `a-b`, a list `a,b,c`, or a step `*/n`. -/
def cronValidate (expr : String) : Bool :=
  match splitChars ' ' expr.toList with
  | [mi, h, d, mo, w] =>
    cronFieldOk 0 59 mi && cronFieldOk 0 23 h && cronFieldOk 1 31 d &&
      cronFieldOk 1 12 mo && cronFieldOk 0 6 w
  | _ => false

/-- The capability calls a Target Runner can make on its Target Driver. -/
inductive DriverCall where
  | checkLoggedIn
  | login
  | performCheckIn
deriving DecidableEq

/-- Outcomes the environment supplies to one Target Runner invocation:
whether the automation handle is acquired, and the effective boolean
results of the three driver capabilities (driver exceptions are caught and
mapped to `false` per spec section 4.2, so a boolean suffices). -/
structure DriverOutcome where
  acquireOk : Bool
  loggedIn : Bool
  loginOk : Bool
  checkInOk : Bool
deriving DecidableEq

/-- Modelled from the spec: `BaseSignIn.run` — src/base/BaseSignIn.js is
referenced by both platform classes but is absent from the repository.
Spec section 4.2 state machine: acquire the handle (failure is terminal),
invoke `checkLoggedIn`; if not logged in, invoke `login` (failure is
terminal with no check-in); once authenticated, invoke `performCheckIn`,
whose boolean result is the run's success flag.  Returns the success flag
and the trace of driver calls made. -/
def baseSignInRun (drv : DriverOutcome) : Bool × List DriverCall :=
  if !drv.acquireOk then (false, [])
  else if drv.loggedIn then
    (drv.checkInOk, [DriverCall.checkLoggedIn, DriverCall.performCheckIn])
  else if drv.loginOk then
    (drv.checkInOk,
     [DriverCall.checkLoggedIn, DriverCall.login, DriverCall.performCheckIn])
  else (false, [DriverCall.checkLoggedIn, DriverCall.login])

/-- Formalisation of claim C1's validity condition as the claim words it
(for comparison with `hasValidSession`): the file exists, parses, has at
least one cookie, and its age is within the TTL. -/
def claimedValidC1 (now : Int) (d : SessionDir) (p : String) : Bool :=
  match findFile d (sessionFileName p) with
  | none => false
  | some f =>
    (match f.content with
     | FileContent.parsed (CookiesField.array n) => decide (1 ≤ n)
     | _ => false) && decide (now - f.mtimeMs ≤ ttlDays * dayMs)

/-- The amended validity condition: as C1, but the cookies field need only
be an array — possibly empty, since `data.cookies &&
Array.isArray(data.cookies)` is satisfied by the (truthy) empty array. -/
def validSessionSpec (now : Int) (d : SessionDir) (p : String) : Prop :=
  ∃ f, findFile d (sessionFileName p) = some f ∧
    now - f.mtimeMs ≤ ttlDays * dayMs ∧
    ∃ n, f.content = FileContent.parsed (CookiesField.array n)

/-- Concrete platform list for witnesses: A and B are implemented
platforms, C has no entry in `PLATFORM_CLASSES`. -/
def exPlatforms : List PlatformConfig :=
  [⟨"juejin", "掘金"⟩, ⟨"bilibili", "B站"⟩, ⟨"acfun", "A站"⟩]

/-- Concrete driver behaviour for witnesses: bilibili's run resolves
`false`, every other run resolves `true`. -/
def exDriver : String → RunBehavior :=
  fun n => if n == "bilibili" then RunBehavior.resolves false
    else RunBehavior.resolves true

/-- Session file with empty cookie array used against claim C1. -/
def exEmptyCookiesDir : SessionDir :=
  ⟨[⟨"p_state.json", 0, FileContent.parsed (CookiesField.array 0)⟩]⟩

/-- Expired but well-formed session file used for claim C2's witness. -/
def exFileExpired : SessFile :=
  ⟨"juejin_state.json", 0, FileContent.parsed (CookiesField.array 1)⟩

/-- Directory holding only `exFileExpired`. -/
def exDirExpired : SessionDir := ⟨[exFileExpired]⟩

/-- Directory with one three-day-old session file (nothing expired), used
against claim C5. -/
def exFreshDir : SessionDir :=
  ⟨[⟨"juejin_state.json", 0, FileContent.parsed (CookiesField.array 2)⟩]⟩

/-- Freshly constructed scheduler state (`new CronScheduler()` with no
tasks), used for claim C7's witness. -/
def exScheduler : SchedulerState := ⟨[], false⟩

theorem leadsWith_append (l rest : List Char) :
    leadsWith l (l ++ rest) = true := by
  induction l with
  | nil => rfl
  | cons a as ih => simp [leadsWith, ih]

theorem isStateFile_sessionFileName (p : String) :
    isStateFile (sessionFileName p) = true := by
  show trailsWith stateSuffix.toList (p ++ stateSuffix).toList = true
  rw [trailsWith]
  have h : (p ++ stateSuffix).toList = p.toList ++ stateSuffix.toList := by
    simp [String.toList, String.data_append]
  rw [h, List.reverse_append, leadsWith_append]

theorem findFile_clearSession (d : SessionDir) (p : String) :
    findFile (clearSession d p) (sessionFileName p) = none := by
  rw [findFile, List.find?_eq_none]
  intro x hx
  simp only [clearSession, List.mem_filter, Bool.not_eq_true'] at hx
  simp [hx.2]

theorem hasValidSession_not_found {now : Int} {d : SessionDir} {p : String}
    (h : findFile d (sessionFileName p) = none) :
    hasValidSession now d p = (false, d) := by
  rw [hasValidSession, h]

theorem hasValidSession_expired {now : Int} {d : SessionDir} {p : String}
    {f : SessFile} (hf : findFile d (sessionFileName p) = some f)
    (hexp : ttlDays * dayMs < now - f.mtimeMs) :
    hasValidSession now d p = (false, clearSession d p) := by
  obtain ⟨nm, mt, ct⟩ := f
  rw [hasValidSession, hf]
  cases ct with
  | malformed => rfl
  | parsed cookies => simp_all

theorem hasValidSession_some_malformed {now : Int} {d : SessionDir}
    {p nm : String} {mt : Int}
    (hf : findFile d (sessionFileName p) =
      some ⟨nm, mt, FileContent.malformed⟩) :
    hasValidSession now d p = (false, clearSession d p) := by
  rw [hasValidSession, hf]

theorem hasValidSession_some_parsed {now : Int} {d : SessionDir}
    {p nm : String} {mt : Int} {c : CookiesField}
    (hf : findFile d (sessionFileName p) =
      some ⟨nm, mt, FileContent.parsed c⟩) :
    hasValidSession now d p =
      if ttlDays * dayMs < now - mt then (false, clearSession d p)
      else (cookiesIsArray c, d) := by
  rw [hasValidSession, hf]

/-- Claim C1 (counterexample): a session file whose content parses and
whose `cookies` field is the empty array is accepted by
`hasValidSession` even though the claimed condition — at least one cookie
— rejects it: the source test `data.cookies && Array.isArray(data.cookies)`
is satisfied by the truthy empty array. -/
theorem c1_claim_counterexample :
    (hasValidSession 0 exEmptyCookiesDir "p").1 = true ∧
      claimedValidC1 0 exEmptyCookiesDir "p" = false := by decide

/-- Claim C1 (amended): `hasValidSession` returns true iff the session
file exists, its content parses as JSON, its `cookies` field is an array —
possibly empty — and the record's age is at most the 7-day TTL. -/
theorem c1_validity_iff (now : Int) (d : SessionDir) (p : String) :
    (hasValidSession now d p).1 = true ↔ validSessionSpec now d p := by
  cases hf : findFile d (sessionFileName p) with
  | none =>
    rw [hasValidSession_not_found hf]
    simp [validSessionSpec, hf]
  | some f =>
    obtain ⟨nm, mt, ct⟩ := f
    cases ct with
    | malformed =>
      rw [hasValidSession_some_malformed hf]
      simp [validSessionSpec, hf]
    | parsed cookies =>
      rw [hasValidSession_some_parsed hf]
      by_cases h7 : ttlDays * dayMs < now - mt
      · rw [if_pos h7]
        simp [validSessionSpec, hf]
        intro h1
        simp only [ttlDays, dayMs] at h7 h1
        omega
      · rw [if_neg h7]
        cases cookies with
        | array n =>
          simp [validSessionSpec, hf, cookiesIsArray]
          simp only [ttlDays, dayMs] at h7 ⊢
          omega
        | absent =>
          simp [validSessionSpec, hf, cookiesIsArray]
        | notArray =>
          simp [validSessionSpec, hf, cookiesIsArray]

/-- Claim C2: a session record older than the TTL makes `hasValidSession`
return false and delete the file during the check itself, and a subsequent
`getStorageStatePath` on the resulting state returns `null` — an expired
record is never handed to a run as a seed. -/
theorem c2_expired_purge (now : Int) (d : SessionDir) (p : String)
    (f : SessFile) (hf : findFile d (sessionFileName p) = some f)
    (hexp : ttlDays * dayMs < now - f.mtimeMs) :
    (hasValidSession now d p).1 = false ∧
      (hasValidSession now d p).2 = clearSession d p ∧
      findFile (hasValidSession now d p).2 (sessionFileName p) = none ∧
      (getStorageStatePath now (hasValidSession now d p).2 p).1 = none := by
  have hmain := hasValidSession_expired hf hexp
  have hnone := findFile_clearSession d p
  refine ⟨by rw [hmain], by rw [hmain], by rw [hmain]; exact hnone, ?_⟩
  rw [hmain]
  show (getStorageStatePath now (clearSession d p) p).1 = none
  rw [getStorageStatePath, hasValidSession_not_found hnone]
  simp

/-- Claim C2 witness: an 8-day-old well-formed record for `juejin`. -/
theorem c2_expired_purge_witness :
    (hasValidSession (8 * dayMs) exDirExpired "juejin").1 = false ∧
      (hasValidSession (8 * dayMs) exDirExpired "juejin").2 =
        clearSession exDirExpired "juejin" ∧
      findFile (hasValidSession (8 * dayMs) exDirExpired "juejin").2
        (sessionFileName "juejin") = none ∧
      (getStorageStatePath (8 * dayMs)
        (hasValidSession (8 * dayMs) exDirExpired "juejin").2 "juejin").1 =
        none :=
  c2_expired_purge (8 * dayMs) exDirExpired "juejin" exFileExpired
    (by decide) (by decide)

theorem promiseAllSlots_getElem? (outcomes : List RunResult) :
    ∀ (completion : List Nat) (slots : List (Option RunResult)) (j : Nat),
      (completion.foldl (fun s i => s.set i outcomes[i]?) slots)[j]? =
        if j ∈ completion ∧ j < slots.length then some outcomes[j]?
        else slots[j]? := by
  intro completion
  induction completion with
  | nil => intro slots j; simp
  | cons i rest ih =>
    intro slots j
    rw [List.foldl_cons, ih]
    simp only [List.length_set, List.mem_cons]
    by_cases h2 : j < slots.length
    · by_cases h1 : j ∈ rest
      · simp [h1, h2]
      · by_cases h3 : i = j
        · subst h3
          simp [h1, h2, List.getElem?_set_self h2]
        · have h3' : ¬j = i := fun h => h3 h.symm
          simp [h1, h2, h3', List.getElem?_set_ne h3]
    · have e1 : (slots.set i outcomes[i]?)[j]? = none :=
        List.getElem?_eq_none (by simpa using Nat.le_of_not_lt h2)
      have e2 : slots[j]? = none := List.getElem?_eq_none (Nat.le_of_not_lt h2)
      simp [h2, e1, e2]

theorem promiseAllSlots_complete (outcomes : List RunResult)
    (completion : List Nat)
    (hc : ∀ j, j < outcomes.length → j ∈ completion) :
    promiseAllSlots outcomes completion = outcomes.map some := by
  apply List.ext_getElem?
  intro n
  rw [promiseAllSlots, promiseAllSlots_getElem?]
  simp only [List.length_replicate, List.getElem?_replicate, List.getElem?_map]
  by_cases hn : n < outcomes.length
  · simp [hn, hc n hn, List.getElem?_eq_getElem hn]
  · have h0 : outcomes[n]? = none := List.getElem?_eq_none (Nat.le_of_not_lt hn)
    simp [hn, h0]

/-- Claim C3: in parallel mode, whenever every run eventually settles, the
collected result list equals the configured platform order mapped through
the per-platform run — independent of the completion order, since
`Promise.all` collects each result into the slot of the promise that
produced it.  Two runs differing only in completion timing therefore yield
identical, configured-order reports. -/
theorem c3_parallel_positional (driver : String → RunBehavior)
    (platforms : List PlatformConfig) (completion : List Nat)
    (hc : ∀ j, j < platforms.length → j ∈ completion) :
    runAllParallel driver platforms completion =
      (platforms.map (signInPlatform driver)).map some := by
  rw [runAllParallel]
  exact promiseAllSlots_complete _ completion
    (fun j hj => hc j (by simpa using hj))

/-- Claim C3 witness: three platforms with completion order B, C, A
(B fastest, A slowest) still collect in configured order A, B, C. -/
theorem c3_parallel_positional_witness :
    (∀ j, j < exPlatforms.length → j ∈ [1, 2, 0]) ∧
      runAllParallel exDriver exPlatforms [1, 2, 0] =
        (exPlatforms.map (signInPlatform exDriver)).map some :=
  ⟨by decide, c3_parallel_positional exDriver exPlatforms [1, 2, 0] (by decide)⟩

/-- Claim C4 (counterexample): `runSingle` on a name absent from the
enabled platform set produces no result at all — `this.results` stays
empty and nothing is reported — rather than the claimed single-element
failure report. -/
theorem c4_claim_counterexample :
    (runSingle exDriver exPlatforms [] "douyin").results = [] ∧
      (runSingle exDriver exPlatforms [] "douyin").reported = false ∧
      ¬(runSingle exDriver exPlatforms [] "douyin").results.length = 1 := by
  decide

/-- Claim C4 (amended): for a target id absent from the enabled platform
set, `runSingle` logs the not-found-or-disabled failure and returns
without producing any RunResult or report: `this.results` is left
unchanged and `printResults` does not run. -/
theorem c4_not_found_no_report (driver : String → RunBehavior)
    (platforms : List PlatformConfig) (prevResults : List RunResult)
    (name : String) (h : ∀ p ∈ platforms, p.name ≠ name) :
    runSingle driver platforms prevResults name = ⟨prevResults, false⟩ := by
  have hfind : platforms.find? (fun p => p.name == name) = none := by
    rw [List.find?_eq_none]
    intro x hx
    simpa using h x hx
  rw [runSingle, hfind]

/-- Claim C4 witness: `douyin` is not among the enabled platforms. -/
theorem c4_not_found_no_report_witness :
    (∀ p ∈ exPlatforms, p.name ≠ "douyin") ∧
      runSingle exDriver exPlatforms [] "douyin" = ⟨[], false⟩ :=
  ⟨by decide, c4_not_found_no_report exDriver exPlatforms [] "douyin" (by decide)⟩

theorem cleanupLoop_eq (now : Int) (files : List SessFile) :
    cleanupLoop now files =
      (files.filter (fun f => !(expiredState now f)),
       (files.filter (fun f => expiredState now f)).length) := by
  induction files with
  | nil => rfl
  | cons f rest ih =>
    rw [cleanupLoop, ih]
    by_cases h : expiredState now f <;> simp [h, List.filter]

/-- Claim C5 (counterexample): with nothing expired,
`cleanupExpiredSessions` does not return 0 — the method body has no
`return` statement, so its value is `undefined` (`none`), not the purge
count. -/
theorem c5_claim_counterexample :
    cleanedCountOf (3 * dayMs) exFreshDir.files = 0 ∧
      (cleanupExpiredSessions (3 * dayMs) exFreshDir).2 ≠ some 0 := by
  decide

/-- Claim C5 (amended): `cleanupExpiredSessions` scans all session
records, purges exactly those exceeding the TTL, and counts them in the
internal `cleanedCount` (which drives the log line); but it returns no
value — the count, zero or not, is never returned to the caller. -/
theorem c5_purges_and_counts_but_returns_nothing (now : Int)
    (files : List SessFile) :
    (cleanupExpiredSessions now ⟨files⟩).1.files =
        files.filter (fun f => !(expiredState now f)) ∧
      cleanedCountOf now files =
        (files.filter (fun f => expiredState now f)).length ∧
      (cleanupExpiredSessions now ⟨files⟩).2 = none := by
  refine ⟨?_, ?_, rfl⟩ <;>
    simp [cleanupExpiredSessions, cleanedCountOf, cleanupLoop_eq]

/-- Claim C6: the serial branch of `runAll` runs the platforms one at a
time in configured order, produces the results in that same order, and
places one 3000 ms delay between each pair of consecutive platforms —
`List.intersperse` form: the delay is skipped after the last platform. -/
theorem c6_serial_order_and_delays (driver : String → RunBehavior)
    (platforms : List PlatformConfig) (h : platforms ≠ []) :
    (runAllSerialLoop driver platforms).1 =
        platforms.map (signInPlatform driver) ∧
      (runAllSerialLoop driver platforms).2 =
        List.intersperse (Event.delay 3000)
          (platforms.map (fun p => Event.runTarget p.name)) := by
  clear h
  induction platforms with
  | nil => exact ⟨rfl, rfl⟩
  | cons p rest ih =>
    cases rest with
    | nil => exact ⟨rfl, rfl⟩
    | cons q rs =>
      obtain ⟨ih1, ih2⟩ := ih
      rw [runAllSerialLoop]
      constructor
      · simp [ih1]
      · simp [ih2, List.intersperse]

/-- Claim C6 witness: platforms A, B, C with B's run failing — results in
configured order and delays only between consecutive platforms. -/
theorem c6_serial_order_and_delays_witness :
    exPlatforms ≠ [] ∧
      ((runAllSerialLoop exDriver exPlatforms).1 =
          exPlatforms.map (signInPlatform exDriver) ∧
        (runAllSerialLoop exDriver exPlatforms).2 =
          List.intersperse (Event.delay 3000)
            (exPlatforms.map (fun p => Event.runTarget p.name))) :=
  ⟨by decide, c6_serial_order_and_delays exDriver exPlatforms (by decide)⟩

/-- Claim C7: when the cron expression fails validation and the scheduler
is not already running, `CronScheduler.start` rejects it with an error
message identifying the expression, registers no task, leaves the state
(including `isRunning`) unchanged, and a subsequent `getStatus` shows the
same task ids as before. -/
theorem c7_invalid_cron_rejected (validate : String → Bool)
    (s : SchedulerState) (expr : String) (hv : validate expr = false)
    (hr : s.isRunning = false) :
    (CronScheduler.start validate s expr).1 = s ∧
      (CronScheduler.start validate s expr).2 =
        some ("无效的cron表达式: " ++ expr) ∧
      CronScheduler.getStatus (CronScheduler.start validate s expr).1 =
        CronScheduler.getStatus s := by
  simp [CronScheduler.start, hv, hr]

/-- Claim C7 witness: the invalid expression `99 8 * * *` (minute 99 out
of range) against a fresh scheduler, under the spec-modelled validator. -/
theorem c7_invalid_cron_rejected_witness :
    cronValidate "99 8 * * *" = false ∧
      exScheduler.isRunning = false ∧
      ((CronScheduler.start cronValidate exScheduler "99 8 * * *").1 =
          exScheduler ∧
        (CronScheduler.start cronValidate exScheduler "99 8 * * *").2 =
          some ("无效的cron表达式: " ++ "99 8 * * *") ∧
        CronScheduler.getStatus
            (CronScheduler.start cronValidate exScheduler "99 8 * * *").1 =
          CronScheduler.getStatus exScheduler) :=
  ⟨by decide, by decide,
    c7_invalid_cron_rejected cronValidate exScheduler "99 8 * * *"
      (by decide) (by decide)⟩

/-- Claim C8: within one Target Runner invocation, whenever
`checkLoggedIn` reports true the `login` capability is never invoked. -/
theorem c8_no_login_when_logged_in (drv : DriverOutcome)
    (h : drv.loggedIn = true) :
    DriverCall.login ∉ (baseSignInRun drv).2 := by
  by_cases ha : drv.acquireOk <;> simp [baseSignInRun, h, ha]

/-- Claim C8 witness: a run that is already logged in (and whose `login`
would fail if it were ever called). -/
theorem c8_no_login_when_logged_in_witness :
    (DriverOutcome.mk true true false true).loggedIn = true ∧
      DriverCall.login ∉ (baseSignInRun ⟨true, true, false, true⟩).2 :=
  ⟨rfl, c8_no_login_when_logged_in ⟨true, true, false, true⟩ rfl⟩

/-- Claim C9: the operator inventory `getAllSessions` never reads file
content — overwriting every file's content leaves its output unchanged —
and computes `isValid` from the modification age alone; consequently a
session file whose content is corrupt but whose age is within the TTL is
listed as `isValid = true` while `hasValidSession` on the same platform
returns false and purges the file. -/
theorem c9_inventory_ignores_content :
    (∀ (now : Int) (files : List SessFile) (c : FileContent),
      getAllSessions now ⟨files.map (fun f => { f with content := c })⟩ =
        getAllSessions now ⟨files⟩) ∧
    (∀ (now mtime : Int) (p : String),
      now - mtime ≤ ttlDays * dayMs →
      (getAllSessions now
          ⟨[⟨sessionFileName p, mtime, FileContent.malformed⟩]⟩).map
          SessionInfo.isValid = [true] ∧
        (hasValidSession now
          ⟨[⟨sessionFileName p, mtime, FileContent.malformed⟩]⟩ p).1 =
          false ∧
        (hasValidSession now
          ⟨[⟨sessionFileName p, mtime, FileContent.malformed⟩]⟩ p).2.files =
          []) := by
  constructor
  · intro now files c
    rw [getAllSessions, getAllSessions]
    induction files with
    | nil => rfl
    | cons f rest ih =>
      by_cases h : isStateFile f.name <;>
        simp [h, List.filter] at ih ⊢ <;> simp [h, ih]
  · intro now mtime p h
    have hsf := isStateFile_sessionFileName p
    have hfind : findFile ⟨[⟨sessionFileName p, mtime, FileContent.malformed⟩]⟩
        (sessionFileName p) =
        some ⟨sessionFileName p, mtime, FileContent.malformed⟩ := by
      simp [findFile]
    refine ⟨?_, ?_, ?_⟩
    · simp [getAllSessions, hsf]
      simp only [ttlDays, dayMs] at h ⊢
      omega
    · rw [hasValidSession_some_malformed hfind]
    · rw [hasValidSession_some_malformed hfind]
      simp [clearSession]

/-- Claim C9 witness: a one-day-old corrupt `juejin` session file — the
inventory says valid, the validity check says invalid and deletes it. -/
theorem c9_inventory_ignores_content_witness :
    (dayMs : Int) - 0 ≤ ttlDays * dayMs ∧
      ((getAllSessions dayMs
          ⟨[⟨sessionFileName "juejin", 0, FileContent.malformed⟩]⟩).map
          SessionInfo.isValid = [true] ∧
        (hasValidSession dayMs
          ⟨[⟨sessionFileName "juejin", 0, FileContent.malformed⟩]⟩
          "juejin").1 = false ∧
        (hasValidSession dayMs
          ⟨[⟨sessionFileName "juejin", 0, FileContent.malformed⟩]⟩
          "juejin").2.files = []) :=
  ⟨by decide, c9_inventory_ignores_content.2 dayMs 0 "juejin" (by decide)⟩

/-- Claim C10: the housekeeping pass deletes exactly the files whose name
ends with `_state.json` and whose modification age exceeds 7 days; every
other file in the directory — including every session file at or under the
TTL age — survives unchanged and in order. -/
theorem c10_cleanup_frame (now : Int) (files : List SessFile) :
    (cleanupExpiredSessions now ⟨files⟩).1.files =
      files.filter
        (fun f => !(isStateFile f.name &&
          decide (ttlDays * dayMs < now - f.mtimeMs))) := by
  simp [cleanupExpiredSessions, cleanupLoop_eq, expiredState]

end AutoSigninProof
